import Mathlib

/-!
Verification of the checkout-session request module
(`src/resources/checkout_session_ext.rs`) of the stripe-rs repository.

The module defines plain request records (`CreateCheckoutSession` and its
nested line-item / price-data / product-data records), an omit-if-absent
serialization discipline expressed through serde attributes, and a single
forwarding call `CheckoutSession::create` that posts the form-encoded
request to the fixed path `/checkout/sessions`.

The embedding below models the payload as an ordered list of
key/value pairs, mirroring the field order and the per-field serde
attributes of the source.  Auxiliary types that the module imports from
elsewhere in the repository (`Currency`, `CustomerId`, the locale / mode /
submit-type enumerations, the `CheckoutSession` response object and the
`Client` transport) are modelled from the specification, as noted on each
definition.
-/

namespace Stripe

/-- A value of the form-style payload: a string, an unsigned integer, a
sequence, a nested record, or the marker `null` that the derived serializer
emits for an `Option` field that has no omit-if-absent attribute and is
unset. -/
inductive FormValue where
  | str : String → FormValue
  | nat : Nat → FormValue
  | list : List FormValue → FormValue
  | obj : List (String × FormValue) → FormValue
  | null : FormValue
deriving Repr

/-- Whether a payload value is the unset marker. -/
def FormValue.isNull : FormValue → Bool
  | .null => true
  | _ => false

/-- Modelled from the spec: the form encoder of the transport layer keeps
`field=value` pairs only for fields that carry a value; "any field left
unset must be entirely absent from the encoded payload, not encoded as a
null/empty marker", so pairs whose value is the unset marker are dropped. -/
def dropNull (ps : List (String × FormValue)) : List (String × FormValue) :=
  ps.filter fun p => !p.2.isNull

/-- Serde-derive semantics of `#[serde(skip_serializing_if = "Option::is_none")]`:
the field is omitted when unset, and emitted with its value otherwise. -/
def optPair (k : String) : Option FormValue → List (String × FormValue)
  | none => []
  | some v => [(k, v)]

/-- Derive-level value of an `Option` field that has no skip attribute:
it is always emitted, as the unset marker when absent. -/
def optValue : Option FormValue → FormValue
  | none => .null
  | some v => v

/-- Modelled from the spec: three-letter lowercase ISO currency code
(`Currency`, defined elsewhere in the repository). -/
structure Currency where
  code : String
deriving Repr

/-- Modelled from the spec: customer identifier (`CustomerId`, defined
elsewhere in the repository), serialized as its string form. -/
structure CustomerId where
  id : String
deriving Repr

/-- Modelled from the spec: IETF language tag of the locale Checkout is
displayed in (`CheckoutSessionLocale`, defined elsewhere in the
repository). -/
structure CheckoutSessionLocale where
  tag : String
deriving Repr

/-- The mode of the Checkout Session, one of `payment`, `setup`, or
`subscription` (enumeration defined elsewhere in the repository; values
from the doc comment in the source). -/
inductive CheckoutSessionMode where
  | payment
  | setup
  | subscription
deriving Repr

/-- Wire form of the mode enumeration. -/
def CheckoutSessionMode.wire : CheckoutSessionMode → String
  | .payment => "payment"
  | .setup => "setup"
  | .subscription => "subscription"

/-- The submit type, one of `auto`, `book`, `donate`, or `pay`
(enumeration defined elsewhere in the repository; values from the doc
comment in the source). -/
inductive CheckoutSessionSubmitType where
  | auto
  | book
  | donate
  | pay
deriving Repr

/-- Wire form of the submit-type enumeration. -/
def CheckoutSessionSubmitType.wire : CheckoutSessionSubmitType → String
  | .auto => "auto"
  | .book => "book"
  | .donate => "donate"
  | .pay => "pay"

/-- `CheckoutSessionLineItemPriceDataProductData`: display metadata for an
inline price.  `name` is mandatory; `description` is an `Option` WITHOUT a
`skip_serializing_if` attribute in the source. -/
structure CheckoutSessionLineItemPriceDataProductData where
  name : String
  description : Option String
deriving Repr

/-- `CheckoutSessionLineItemPriceData`: inline price definition.
`unit_amount` is `usize` in the source, an unsigned machine integer,
modelled as `Nat`. -/
structure CheckoutSessionLineItemPriceData where
  unit_amount : Nat
  currency : Currency
  product_data : CheckoutSessionLineItemPriceDataProductData
deriving Repr

/-- `CheckoutSessionLineItem`: one purchasable entry.  `quantity` and
`price_data` are mandatory; the three display fields are `Option`s with
`skip_serializing_if = "Option::is_none"`. -/
structure CheckoutSessionLineItem where
  quantity : Nat
  price_data : CheckoutSessionLineItemPriceData
  description : Option String
  images : Option (List String)
  dynamic_tax_rates : Option (List String)
deriving Repr

/-- `CreateCheckoutSession`: the parameters of `CheckoutSession::create`,
with the field order of the source.  The first three fields are mandatory; every
other field is an `Option` with `skip_serializing_if = "Option::is_none"`. -/
structure CreateCheckoutSession where
  cancel_url : String
  payment_method_types : List String
  success_url : String
  client_reference_id : Option String
  customer : Option CustomerId
  customer_email : Option String
  billing_address_collection : Option String
  line_items : Option (List CheckoutSessionLineItem)
  locale : Option CheckoutSessionLocale
  mode : Option CheckoutSessionMode
  submit_type : Option CheckoutSessionSubmitType
deriving Repr

/-- Encoded product data.  The derived serializer emits `name` always and
`description` always (the source has no skip attribute on it), the latter
as the unset marker when `None`; the form encoder (`dropNull`) then removes
unset pairs. -/
def serializeProductData (p : CheckoutSessionLineItemPriceDataProductData) :
    List (String × FormValue) :=
  dropNull [("name", .str p.name),
            ("description", optValue (p.description.map .str))]

/-- Encoded price data: all three fields are mandatory and always
emitted. -/
def serializePriceData (pd : CheckoutSessionLineItemPriceData) :
    List (String × FormValue) :=
  [("unit_amount", .nat pd.unit_amount),
   ("currency", .str pd.currency.code),
   ("product_data", .obj (serializeProductData pd.product_data))]

/-- Encoded line item: `quantity` and `price_data` always, each optional
display field only when set (its skip attribute). -/
def serializeLineItem (li : CheckoutSessionLineItem) :
    List (String × FormValue) :=
  [("quantity", .nat li.quantity),
   ("price_data", .obj (serializePriceData li.price_data))]
  ++ optPair "description" (li.description.map .str)
  ++ optPair "images" (li.images.map fun xs => .list (xs.map .str))
  ++ optPair "dynamic_tax_rates" (li.dynamic_tax_rates.map fun xs => .list (xs.map .str))

/-- Encoded request: the three mandatory fields always, each optional
field only when set (every optional field of `CreateCheckoutSession`
carries the skip attribute in the source, so no unset marker can occur at
this level and the form encoder leaves the list unchanged). -/
def serializeCreate (r : CreateCheckoutSession) : List (String × FormValue) :=
  [("cancel_url", .str r.cancel_url),
   ("payment_method_types", .list (r.payment_method_types.map .str)),
   ("success_url", .str r.success_url)]
  ++ optPair "client_reference_id" (r.client_reference_id.map .str)
  ++ optPair "customer" (r.customer.map fun c => .str c.id)
  ++ optPair "customer_email" (r.customer_email.map .str)
  ++ optPair "billing_address_collection" (r.billing_address_collection.map .str)
  ++ optPair "line_items" (r.line_items.map fun xs => .list (xs.map fun li => .obj (serializeLineItem li)))
  ++ optPair "locale" (r.locale.map fun l => .str l.tag)
  ++ optPair "mode" (r.mode.map fun m => .str m.wire)
  ++ optPair "submit_type" (r.submit_type.map fun s => .str s.wire)

/-- The keys of an encoded pair list. -/
def keysOf (ps : List (String × FormValue)) : List String :=
  ps.map Prod.fst

/-- Modelled from the spec: the `CheckoutSession` response, a
"remote-defined session object" whose fields are managed by the remote
API; modelled by its identifier. -/
structure CheckoutSession where
  id : String
deriving Repr

/-- Modelled from the spec: the transport-level error type, "whatever
error type [the transport] defines". -/
structure StripeError where
  msg : String
deriving Repr

/-- A single outbound form-encoded POST: a resource path and a body. -/
structure FormRequest where
  path : String
  body : List (String × FormValue)

/-- Modelled from the spec: the generic client capability, "submit a
form-encoded POST to a path and deserialize the JSON response into type T,
or fail with a transport/API error". -/
structure Client where
  transport : FormRequest → Except StripeError CheckoutSession

/-- Modelled from the spec: `Client::post_form` issues one form-encoded
POST of the given body against the given path and returns the transport
result unmodified, together with the trace of requests it issued. -/
def Client.post_form (c : Client) (path : String)
    (body : List (String × FormValue)) :
    Except StripeError CheckoutSession × List FormRequest :=
  (c.transport ⟨path, body⟩, [⟨path, body⟩])

/-- `CheckoutSession::create`: forward the serialized parameters to
`client.post_form("/checkout/sessions", params)`. -/
def CheckoutSession.create (client : Client) (params : CreateCheckoutSession) :
    Except StripeError CheckoutSession × List FormRequest :=
  client.post_form "/checkout/sessions" (serializeCreate params)

/-- A request with only the mandatory fields of the example in the spec. -/
def sampleRequest : CreateCheckoutSession :=
  ⟨"https://a/x", ["card"], "https://a/y",
   none, none, none, none, none, none, none, none⟩

/-- A client whose transport always succeeds with a fixed session. -/
def okClient : Client := ⟨fun _ => .ok ⟨"cs_1"⟩⟩

/-- A client whose transport always fails with a fixed error. -/
def errClient : Client := ⟨fun _ => .error ⟨"boom"⟩⟩

lemma mem_keysOf_optPair {α : Type} (k k' : String) (o : Option α)
    (f : α → FormValue) :
    k ∈ keysOf (optPair k' (Option.map f o)) ↔ (k = k' ∧ o.isSome) := by
  cases o <;> simp [optPair, keysOf]

lemma keysOf_append (ps qs : List (String × FormValue)) :
    keysOf (ps ++ qs) = keysOf ps ++ keysOf qs := by
  simp [keysOf]

lemma keysOf_nil : keysOf [] = [] := rfl

lemma keysOf_cons (k : String) (v : FormValue) (ps : List (String × FormValue)) :
    keysOf ((k, v) :: ps) = k :: keysOf ps := rfl

/-- Claim C1: in every request and nested record, an optional field left
unset produces no key at all in the encoded payload (its key is present
exactly when the field is set), and the unset marker never survives into
the encoded product data. -/
theorem unset_optional_fields_absent (r : CreateCheckoutSession)
    (li : CheckoutSessionLineItem)
    (p : CheckoutSessionLineItemPriceDataProductData) :
    ("client_reference_id" ∈ keysOf (serializeCreate r) ↔ r.client_reference_id.isSome)
    ∧ ("customer" ∈ keysOf (serializeCreate r) ↔ r.customer.isSome)
    ∧ ("customer_email" ∈ keysOf (serializeCreate r) ↔ r.customer_email.isSome)
    ∧ ("billing_address_collection" ∈ keysOf (serializeCreate r) ↔ r.billing_address_collection.isSome)
    ∧ ("line_items" ∈ keysOf (serializeCreate r) ↔ r.line_items.isSome)
    ∧ ("locale" ∈ keysOf (serializeCreate r) ↔ r.locale.isSome)
    ∧ ("mode" ∈ keysOf (serializeCreate r) ↔ r.mode.isSome)
    ∧ ("submit_type" ∈ keysOf (serializeCreate r) ↔ r.submit_type.isSome)
    ∧ ("description" ∈ keysOf (serializeLineItem li) ↔ li.description.isSome)
    ∧ ("images" ∈ keysOf (serializeLineItem li) ↔ li.images.isSome)
    ∧ ("dynamic_tax_rates" ∈ keysOf (serializeLineItem li) ↔ li.dynamic_tax_rates.isSome)
    ∧ ("description" ∈ keysOf (serializeProductData p) ↔ p.description.isSome)
    ∧ FormValue.null ∉ (serializeProductData p).map Prod.snd := by
  cases p
  case mk nm ds =>
    cases ds <;>
    · refine ⟨?_, ?_, ?_, ?_, ?_, ?_, ?_, ?_, ?_, ?_, ?_, ?_, ?_⟩ <;>
      simp [serializeCreate, serializeLineItem, serializeProductData,
            dropNull, optValue, FormValue.isNull, mem_keysOf_optPair,
            keysOf_append, keysOf_cons, keysOf_nil, List.mem_append]

/-- Claim C2: a request with only the mandatory fields set encodes to
exactly the three pairs `cancel_url`, `payment_method_types` and
`success_url`, carrying the supplied values, and nothing else. -/
theorem mandatory_only_payload (cu su : String) (pmt : List String) :
    serializeCreate
      ⟨cu, pmt, su, none, none, none, none, none, none, none, none⟩ =
      [("cancel_url", FormValue.str cu),
       ("payment_method_types", FormValue.list (pmt.map FormValue.str)),
       ("success_url", FormValue.str su)] := rfl

/-- Claim C3: setting `customer_email` to a value adds exactly one pair,
`customer_email` mapped to that value, at its position in the payload;
every other pair of the payload is unchanged. -/
theorem customer_email_frame (r : CreateCheckoutSession) (e : String) :
    ∃ l1 l2,
      serializeCreate { r with customer_email := none } = l1 ++ l2 ∧
      serializeCreate { r with customer_email := some e } =
        l1 ++ ("customer_email", FormValue.str e) :: l2 := by
  refine ⟨[("cancel_url", FormValue.str r.cancel_url),
           ("payment_method_types", FormValue.list (r.payment_method_types.map FormValue.str)),
           ("success_url", FormValue.str r.success_url)]
          ++ optPair "client_reference_id" (r.client_reference_id.map FormValue.str)
          ++ optPair "customer" (r.customer.map fun c => FormValue.str c.id),
         optPair "billing_address_collection" (r.billing_address_collection.map FormValue.str)
          ++ optPair "line_items" (r.line_items.map fun xs =>
               FormValue.list (xs.map fun li => FormValue.obj (serializeLineItem li)))
          ++ optPair "locale" (r.locale.map fun l => FormValue.str l.tag)
          ++ optPair "mode" (r.mode.map fun m => FormValue.str m.wire)
          ++ optPair "submit_type" (r.submit_type.map fun s => FormValue.str s.wire),
         ?_, ?_⟩ <;>
  simp [serializeCreate, optPair]

/-- Claim C4: `CheckoutSession.create` issues exactly one form-encoded
POST, of the serialized request, against the fixed path
`/checkout/sessions`; the path does not depend on the request. -/
theorem create_posts_once (c : Client) (p : CreateCheckoutSession) :
    (CheckoutSession.create c p).2 =
      [⟨"/checkout/sessions", serializeCreate p⟩] ∧
    ∀ q : CreateCheckoutSession,
      (CheckoutSession.create c p).2.map FormRequest.path =
        (CheckoutSession.create c q).2.map FormRequest.path :=
  ⟨rfl, fun _ => rfl⟩

/-- Claim C5: the result of `CheckoutSession.create` is exactly the
result of the transport `post_form` call, unmodified: a transport success
is returned as that success, a transport error as that error, with nothing
caught, transformed or added. -/
theorem create_passthrough (c : Client) (p : CreateCheckoutSession) :
    (CheckoutSession.create c p).1 =
      (c.post_form "/checkout/sessions" (serializeCreate p)).1
    ∧ (∀ s, c.transport ⟨"/checkout/sessions", serializeCreate p⟩ = .ok s →
        (CheckoutSession.create c p).1 = .ok s)
    ∧ (∀ err, c.transport ⟨"/checkout/sessions", serializeCreate p⟩ = .error err →
        (CheckoutSession.create c p).1 = .error err) :=
  ⟨rfl, fun _ h => h, fun _ h => h⟩

/-- Witness for claim C5 at concrete clients: a succeeding transport
yields its session unmodified and a failing transport yields its error
unmodified. -/
theorem create_passthrough_witness :
    (CheckoutSession.create okClient sampleRequest).1 = .ok ⟨"cs_1"⟩
    ∧ (CheckoutSession.create errClient sampleRequest).1 = .error ⟨"boom"⟩ :=
  ⟨(create_passthrough okClient sampleRequest).2.1 ⟨"cs_1"⟩ rfl,
   (create_passthrough errClient sampleRequest).2.2 ⟨"boom"⟩ rfl⟩

/-- Claim C6: serialization is total and performs no validation: for every
representable request, including empty URLs, unknown payment-method
strings and arbitrary email text, the payload exists and carries the
supplied mandatory values verbatim. -/
theorem serialization_total_no_validation (r : CreateCheckoutSession) :
    ("cancel_url", FormValue.str r.cancel_url) ∈ serializeCreate r
    ∧ ("payment_method_types",
        FormValue.list (r.payment_method_types.map FormValue.str)) ∈ serializeCreate r
    ∧ ("success_url", FormValue.str r.success_url) ∈ serializeCreate r := by
  refine ⟨?_, ?_, ?_⟩ <;> simp [serializeCreate, List.mem_append]

/-- Claim C7: the key set of the encoded payload is exactly the
documented one: every mandatory key, a key for an optional field if and
only if that field is set, and no other key. -/
theorem payload_keys_exact (r : CreateCheckoutSession) (k : String) :
    k ∈ keysOf (serializeCreate r) ↔
      (k = "cancel_url" ∨ k = "payment_method_types" ∨ k = "success_url"
       ∨ (k = "client_reference_id" ∧ r.client_reference_id.isSome)
       ∨ (k = "customer" ∧ r.customer.isSome)
       ∨ (k = "customer_email" ∧ r.customer_email.isSome)
       ∨ (k = "billing_address_collection" ∧ r.billing_address_collection.isSome)
       ∨ (k = "line_items" ∧ r.line_items.isSome)
       ∨ (k = "locale" ∧ r.locale.isSome)
       ∨ (k = "mode" ∧ r.mode.isSome)
       ∨ (k = "submit_type" ∧ r.submit_type.isSome)) := by
  simp [serializeCreate, mem_keysOf_optPair, keysOf_append, keysOf_cons,
        keysOf_nil, List.mem_append, or_assoc]

/-- Claim C8: a line item with only the mandatory `quantity` and inline
price data set encodes to exactly the two pairs `quantity` and
`price_data`, with no key for the three optional display fields. -/
theorem line_item_mandatory_only (q : Nat)
    (pd : CheckoutSessionLineItemPriceData) :
    serializeLineItem ⟨q, pd, none, none, none⟩ =
      [("quantity", FormValue.nat q),
       ("price_data", FormValue.obj (serializePriceData pd))] := rfl

/-- Claim C9: the serialized `unit_amount` is the unsigned integer of the
price data, and as an integer it is never negative: a negative amount is
not representable at this interface. -/
theorem unit_amount_nonneg (pd : CheckoutSessionLineItemPriceData) :
    ("unit_amount", FormValue.nat pd.unit_amount) ∈ serializePriceData pd
    ∧ 0 ≤ (pd.unit_amount : Int) :=
  ⟨by simp [serializePriceData], Int.ofNat_nonneg _⟩

/-- Claim C10: the mandatory `payment_method_types` pair is present in
every encoded payload, with the supplied list, even when that list is
empty: the empty list still yields the key. -/
theorem payment_method_types_always_present (r : CreateCheckoutSession) :
    ("payment_method_types",
        FormValue.list (r.payment_method_types.map FormValue.str)) ∈ serializeCreate r
    ∧ "payment_method_types" ∈
        keysOf (serializeCreate { r with payment_method_types := [] }) := by
  constructor <;>
  simp [serializeCreate, List.mem_append, keysOf_append, keysOf_cons, keysOf_nil]

end Stripe
